import Mathlib

/-!
Verification of the AI orchestration core of the `mwb` command-line tool
(`src/ai/mod.rs` and `src/ai/tools.rs`).

The development is a shallow embedding of the Rust code.  Pure string
processing (query enhancement, tag stripping, result formatting, truncation)
is translated directly.  Network and filesystem effects (HTTP requests,
HTML/JSON parsing done by `reqwest`/`scraper`/`serde_json`, writing the
playlist file, launching VLC) are modelled as oracle inputs: each network
call site receives the outcome the external world would have produced.
Machine strings are modelled at the character level (Rust byte indices /
`len()` coincide with character counts on ASCII data; the divergence on
multi-byte data is noted where relevant).  The process environment variable
`SEARCH_TOOL_USED` is modelled as a boolean threaded through the run and
returned, so that cross-run persistence (the variable survives a run) is
expressible.
-/

set_option maxRecDepth 10000

namespace Mwb

/-! ## Generic string helpers (modelling Rust `str` methods) -/

/-- Models Rust slice `starts_with` on character lists. -/
def listIsPrefixOf : List Char → List Char → Bool
  | [], _ => true
  | _ :: _, [] => false
  | a :: as, b :: bs => a == b && listIsPrefixOf as bs

/-- Substring containment on character lists (Rust `str::contains`). -/
def listContainsSub (pat : List Char) : List Char → Bool
  | [] => listIsPrefixOf pat []
  | c :: rest => listIsPrefixOf pat (c :: rest) || listContainsSub pat rest

/-- Models Rust `str::contains(pat)`. -/
def containsSubstring (s pat : String) : Bool :=
  listContainsSub pat.data s.data

/-- Models Rust `str::to_lowercase()`.  (Rust lowercases full Unicode; the
ASCII mapping used here agrees with it on all the ASCII markers the code
tests for, such as "playlist".) -/
def to_lowercase (s : String) : String :=
  ⟨s.data.map Char.toLower⟩

/-! ## `tools.rs`: `strip_html_tags`

Rust removes every match of the regex `<[^>]*>`: at a `<`, if a later `>`
exists, everything up to and including the first such `>` is removed;
a `<` with no closing `>` is kept. -/

/-- Index of the first `'>'` in the list, if any. -/
def findGtIdx : List Char → Option Nat
  | [] => none
  | c :: rest => if c = '>' then some 0 else (findGtIdx rest).map (· + 1)

/-- Character-level tag remover implementing `replace_all` of `<[^>]*>`. -/
def stripTagsAux : List Char → List Char
  | [] => []
  | c :: rest =>
    if c = '<' then
      match findGtIdx rest with
      | some i => stripTagsAux (rest.drop (i + 1))
      | none => c :: stripTagsAux rest
    else c :: stripTagsAux rest
termination_by l => l.length
decreasing_by
  all_goals simp [List.length_drop]
  omega

/-- Models `strip_html_tags` from `tools.rs`. -/
def strip_html_tags (html : String) : String :=
  ⟨stripTagsAux html.data⟩

/-! ## `tools.rs`: query enhancement and URL encoding -/

/-- Models the query enhancement at the top of `perform_google_search`. -/
def enhance_query (query : String) : String :=
  if containsSubstring (to_lowercase query) "käthe und ich" = true
      || containsSubstring (to_lowercase query) "kathe und ich" = true then
    query ++ " episoden reihenfolge chronologisch wikipedia fernsehserien.de"
  else
    query ++ " episodes chronological order episode guide"

/-- Uppercase hexadecimal digit for a value below 16. -/
def hexDigitChar (n : Nat) : Char :=
  if n < 10 then Char.ofNat (48 + n) else Char.ofNat (55 + n)

/-- Percent-encoding of one byte, as `url::form_urlencoded::byte_serialize`
does: ASCII alphanumerics and `*`, `-`, `.`, `_` pass through, space becomes
`+`, every other byte becomes `%XX`. -/
def encodeByte (b : Nat) : String :=
  if (48 ≤ b ∧ b ≤ 57) ∨ (65 ≤ b ∧ b ≤ 90) ∨ (97 ≤ b ∧ b ≤ 122)
      ∨ b = 42 ∨ b = 45 ∨ b = 46 ∨ b = 95 then
    String.mk [Char.ofNat b]
  else if b = 32 then "+"
  else String.mk ['%', hexDigitChar (b / 16), hexDigitChar (b % 16)]

/-- Models the local `urlencoding::encode` helper in `tools.rs`
(UTF-8 byte serialization). -/
def urlencoding_encode (input : String) : String :=
  String.join ((input.toUTF8.toList.map (fun b => b.toNat)).map encodeByte)

/-! ## `tools.rs`: the three search tiers -/

/-- One entry of the DuckDuckGo instant-answer `RelatedTopics` array:
the `Text` and `FirstURL` fields the code reads (absent or non-string
fields yield `none`, like `as_str()`). -/
structure DDGTopic where
  text : Option String
  firstURL : Option String

/-- Outcome of the tier-1 instant-answer HTTP request, as the network
produced it: transport failure of `send()`, body that fails to parse as
JSON, or the consumed JSON fields (`Abstract`, `AbstractURL`,
`RelatedTopics`). -/
inductive Tier1Outcome
  | sendErr
  | jsonErr
  | ok (abstract : Option String) (abstractURL : Option String)
      (relatedTopics : Option (List DDGTopic))

/-- One `div.result` block of the tier-2 HTML results page, reduced to the
three pieces the scraper reads: the title anchor's inner HTML, the snippet
anchor's inner HTML and the title anchor's `href` attribute (each absent
when the corresponding element/attribute is missing). -/
structure ResultBlock where
  titleHtml : Option String
  snippetHtml : Option String
  href : Option String

/-- Outcome of the tier-2 HTML-scrape HTTP request: transport failure,
unreadable body, or the parsed result blocks of the page. -/
inductive Tier2Outcome
  | sendErr
  | textErr
  | ok (blocks : List ResultBlock)

/-- Lines pushed for the instant-answer abstract (`Abstract` and, when an
abstract is present and non-empty, its `AbstractURL`). -/
def abstractLines (abstract abstractURL : Option String) : List String :=
  match abstract with
  | none => []
  | some a =>
    if a = "" then []
    else
      ("Abstract: " ++ a) ::
        (match abstractURL with
         | some u => ["Source: " ++ u]
         | none => [])

/-- Lines pushed for the related topics (`Related {i+1}: ...` and
`URL: ...`), with `i` the 0-based position produced by `enumerate`. -/
def topicLines : Nat → List DDGTopic → List String
  | _, [] => []
  | i, topic :: rest =>
    (match topic.text with
     | some s => ["Related " ++ toString (i + 1) ++ ": " ++ s]
     | none => []) ++
    (match topic.firstURL with
     | some u => ["URL: " ++ u]
     | none => []) ++
    topicLines (i + 1) rest

/-- Formatting of the `i`-th (0-based) scraped result block:
`Title: ...\nURL: ...\nSnippet: ...`, with markup tags stripped from title
and snippet and `Result {i+1}` as default title. -/
def fmtResultBlock (i : Nat) (b : ResultBlock) : String :=
  "Title: " ++ (strip_html_tags (b.titleHtml.getD ("Result " ++ toString (i + 1))) ++
    ("\nURL: " ++ (b.href.getD "" ++
      ("\nSnippet: " ++ strip_html_tags (b.snippetHtml.getD "")))))

/-- Models `scrape_duckduckgo_results` from `tools.rs`: format up to 5
result blocks and join them with `\n\n---\n\n`. -/
def scrape_duckduckgo_results (blocks : List ResultBlock) : Except String String :=
  let results := (blocks.take 5).enum.map (fun p => fmtResultBlock p.1 p.2)
  if results.isEmpty then Except.ok "No search results found."
  else Except.ok (String.intercalate "\n\n---\n\n" results)

/-- First three whitespace-separated words of the query joined by `_`
(Rust `split_whitespace().take(3).join("_")`). -/
def seriesName (query : String) : String :=
  String.intercalate "_"
    (((query.split (fun c => c.isWhitespace)).filter (fun w => w ≠ "")).take 3)

/-- The tier-3 deterministic fallback suggestion string from
`perform_google_search`. -/
def searchFallback (query : String) : String :=
  "Search failed for '" ++ (query ++
    ("'. Try these German TV resources:\n- Wikipedia DE: https://de.wikipedia.org/wiki/" ++
      (urlencoding_encode (seriesName query) ++
        ("\n- Fernsehserien.de: https://www.fernsehserien.de/suche/" ++
          (urlencoding_encode query ++
            ("\n- IMDB: https://www.imdb.com/find?q=" ++
              (urlencoding_encode query ++
                "\n\nFor 'Käthe und ich' specifically, search for:\n- 'Käthe und ich episoden reihenfolge'\n- 'Käthe und ich chronologie'\n- Production years and air dates to determine correct order")))))))

/-- Tier 2 and tier 3 of `perform_google_search`: scrape the HTML results
page when its request succeeded, otherwise return the fallback suggestion
string. -/
def searchTier2 (query enhanced_query : String) (t2 : String → Tier2Outcome) :
    Except String String :=
  match t2 enhanced_query with
  | Tier2Outcome.ok blocks => scrape_duckduckgo_results blocks
  | Tier2Outcome.sendErr => Except.ok (searchFallback query)
  | Tier2Outcome.textErr => Except.ok (searchFallback query)

/-- Models `perform_google_search` from `tools.rs`.  `t1` and `t2` are the
network's responses to the tier-1 and tier-2 requests, as functions of the
requested (enhanced) query. -/
def perform_google_search (query : String) (t1 : String → Tier1Outcome)
    (t2 : String → Tier2Outcome) : Except String String :=
  let enhanced_query := enhance_query query
  match t1 enhanced_query with
  | Tier1Outcome.ok a aurl topics =>
    let results := abstractLines a aurl ++ topicLines 0 ((topics.getD []).take 3)
    if results.isEmpty then searchTier2 query enhanced_query t2
    else Except.ok (String.intercalate "\n\n" results)
  | Tier1Outcome.sendErr => searchTier2 query enhanced_query t2
  | Tier1Outcome.jsonErr => searchTier2 query enhanced_query t2

/-! ## `tools.rs`: `read_website_content` -/

/-- World outcomes for one `read_website_content` call: whether
`Url::parse` accepts the URL, the `send()` outcome (transport error or HTTP
status code), the `text()` outcome, and the result of
`extract_main_content` on the fetched document (the selector cascade runs
on the external `scraper` DOM; its per-document outcome is the oracle
input, its only error being the extraction-failure message). -/
structure ReadEnv where
  urlValid : Bool
  send : Except String Nat
  body : Except String Unit
  extracted : Except String String

/-- The 8000-character ceiling from `read_website_content`. -/
def MAX_LENGTH : Nat := 8000

/-- Models `read_website_content` from `tools.rs`.  Content length is
measured in characters (Rust `len()` counts bytes; the two agree on ASCII
content). -/
def read_website_content (url : String) (env : ReadEnv) : Except String String :=
  if env.urlValid = false then Except.error ("Invalid URL: " ++ url)
  else
    match env.send with
    | Except.error e => Except.error e
    | Except.ok status =>
      if ¬(200 ≤ status ∧ status < 300) then
        Except.error ("HTTP error " ++ toString status ++ ": " ++ url)
      else
        match env.body with
        | Except.error e => Except.error e
        | Except.ok _ =>
          match env.extracted with
          | Except.error e => Except.error e
          | Except.ok content =>
            if MAX_LENGTH < content.length then
              Except.ok (content.take MAX_LENGTH ++
                ("...\n\n[Content truncated to " ++
                  (toString MAX_LENGTH ++ " characters]")))
            else Except.ok content

/-! ## `mod.rs`: request/response data model -/

/-- The tool-argument fields the dispatcher reads out of the JSON `args`
value (`as_str()` / `as_array()` yield `none` when the field is absent or
of the wrong shape).  The episode objects themselves are only forwarded to
`create_vlc_playlist`. -/
structure EpisodeArg where
  title : Option String
  url : Option String
  description : Option String
  duration : Option Nat
  channel : Option String
  topic : Option String

/-- Validated view of a tool invocation's JSON `args`. -/
structure ToolArgs where
  query : Option String
  url : Option String
  episodes : Option (List EpisodeArg)
  playlist_name : Option String

/-- A part of a conversation turn (`Part` in `mod.rs`).  A
`functionResponse`'s `response` field is the JSON object
`{"result": <string>}`; it is modelled by its single `result` string. -/
inductive Part
  | text (text : String)
  | functionCall (name : String) (args : ToolArgs)
  | functionResponse (name : String) (response : String)

/-- A conversation turn (`Content` in `mod.rs`). -/
structure Content where
  role : String
  parts : List Part

/-- A part of a model response (`ResponsePart` in `mod.rs`): text or a
function call. -/
inductive ResponsePart
  | text (text : String)
  | functionCall (name : String) (args : ToolArgs)

/-- Models `ResponseContent` in `mod.rs`. -/
structure ResponseContent where
  parts : List ResponsePart

/-- Models `Candidate` in `mod.rs`. -/
structure Candidate where
  content : ResponseContent
  finish_reason : Option String

/-- Models `GeminiResponse` in `mod.rs`. -/
structure GeminiResponse where
  candidates : List Candidate

/-- The dispatcher's `FunctionResponse` payload: tool name and result
string. -/
structure FunctionResponseData where
  name : String
  response : String

/-- World outcomes for the network/filesystem calls one tool dispatch can
make: the two search tiers, the page fetch of `read_website_content`, and
the effectful `create_vlc_playlist` (file write + VLC launch), modelled by
its result. -/
structure ToolEnv where
  t1 : String → Tier1Outcome
  t2 : String → Tier2Outcome
  read : ReadEnv
  playlist : Except String String

/-! ## `mod.rs`: `execute_function_call`

The boolean state threaded through is the process environment variable
`SEARCH_TOOL_USED` (`true` iff the variable equals "1").  The function
returns the variable's value after the call together with the dispatch
result, mirroring that `std::env::set_var` happens before the search tool
runs and survives even an aborting dispatch. -/

/-- Models `AIProcessor::execute_function_call`. -/
def execute_function_call (searchToolUsed : Bool) (name : String)
    (args : ToolArgs) (env : ToolEnv) : Bool × Except String FunctionResponseData :=
  if name == "read_website_content" && !searchToolUsed then
    (searchToolUsed, Except.error "ERROR: You must use perform_google_search BEFORE using read_website_content. Please search for information first, then read the discovered URLs.")
  else
    match name with
    | "perform_google_search" =>
      match args.query with
      | none => (searchToolUsed, Except.error "Missing 'query' argument")
      | some q =>
        match perform_google_search q env.t1 env.t2 with
        | Except.error e => (true, Except.error e)
        | Except.ok s => (true, Except.ok ⟨name, s⟩)
    | "read_website_content" =>
      match args.url with
      | none => (searchToolUsed, Except.error "Missing 'url' argument")
      | some u =>
        match read_website_content u env.read with
        | Except.error e => (searchToolUsed, Except.error e)
        | Except.ok s => (searchToolUsed, Except.ok ⟨name, s⟩)
    | "create_vlc_playlist" =>
      match args.episodes with
      | none => (searchToolUsed, Except.error "Missing 'episodes' argument")
      | some _ =>
        match args.playlist_name with
        | none => (searchToolUsed, Except.error "Missing 'playlist_name' argument")
        | some _ =>
          match env.playlist with
          | Except.error e => (searchToolUsed, Except.error e)
          | Except.ok s => (searchToolUsed, Except.ok ⟨name, s⟩)
    | _ => (searchToolUsed, Except.error ("Unknown function: " ++ name))

/-! ## `mod.rs`: the conversation loop of `process_episodes` -/

/-- The corrective user turn appended when the model answers with text on
the first iteration. -/
def forceSearchMsg : String :=
  "STOP! You MUST use the perform_google_search tool first. Do not provide any analysis or sorting until you have searched for chronological information. Call perform_google_search now with a query about the series episode order."

/-- The softer corrective nudge appended on early iterations whose text
lacks the "playlist" marker. -/
def workflowNudgeMsg : String :=
  "Continue following the mandatory workflow: Search → Read Sources → Deduplicate → Sort → Create Playlist. What is your next step?"

/-- The turn pair appended when a text response is rejected: the model's
text turn, then a corrective user turn. -/
def rejectPair (t msg : String) : List Content :=
  [Content.mk "model" [Part.text t], Content.mk "user" [Part.text msg]]

/-- The turn pair appended after a dispatched function call: the model's
function-call turn, then the user function-response turn. -/
def fcPair (name : String) (args : ToolArgs) (respName respBody : String) :
    List Content :=
  [Content.mk "model" [Part.functionCall name args],
   Content.mk "user" [Part.functionResponse respName respBody]]

/-- The `max_iterations` constant from `process_episodes`. -/
def max_iterations : Nat := 8

/-- Everything a run produces, together with its observable effect traces:
the final result, the conversation history at return, the value of the
`SEARCH_TOOL_USED` process flag at return, the list of histories sent to
the LLM endpoint (one per executed iteration), and the names of the tools
dispatched. -/
structure LoopOut where
  result : Except String String
  history : List Content
  flag : Bool
  sent : List (List Content)
  toolCalls : List String

/-- The conversation loop of `process_episodes`.  `llm` maps the iteration
index to the outcome of `call_gemini_api` (abort on transport/HTTP error),
`env` maps it to that iteration's tool-world outcomes.  The first parameter
is fuel: it stands for the remaining passes of the Rust
`for iteration in 1..=max_iterations` loop, so the entry point runs with
fuel `max_iterations` and iteration 1, and exhausted fuel is the loop
running off its end (`Err("Unexpected end of conversation loop")`). -/
def loopAux (llm : Nat → Except String GeminiResponse) (env : Nat → ToolEnv) :
    Nat → Nat → List Content → Bool → LoopOut
  | 0, _, hist, flag =>
    ⟨Except.error "Unexpected end of conversation loop", hist, flag, [], []⟩
  | fuel + 1, iteration, hist, flag =>
    match llm iteration with
    | Except.error e => ⟨Except.error e, hist, flag, [hist], []⟩
    | Except.ok resp =>
      match resp.candidates.head?.bind (fun c => c.content.parts.head?) with
      | some (ResponsePart.functionCall name args) =>
        match execute_function_call flag name args (env iteration) with
        | (flag', Except.error e) => ⟨Except.error e, hist, flag', [hist], [name]⟩
        | (flag', Except.ok payload) =>
          let r := loopAux llm env fuel (iteration + 1)
            (hist ++ fcPair name args payload.name payload.response) flag'
          ⟨r.result, r.history, r.flag, hist :: r.sent, name :: r.toolCalls⟩
      | some (ResponsePart.text t) =>
        if iteration = 1 then
          let r := loopAux llm env fuel (iteration + 1)
            (hist ++ rejectPair t forceSearchMsg) flag
          ⟨r.result, r.history, r.flag, hist :: r.sent, r.toolCalls⟩
        else if iteration ≤ 4 ∧ containsSubstring (to_lowercase t) "playlist" = false then
          let r := loopAux llm env fuel (iteration + 1)
            (hist ++ rejectPair t workflowNudgeMsg) flag
          ⟨r.result, r.history, r.flag, hist :: r.sent, r.toolCalls⟩
        else ⟨Except.ok t, hist, flag, [hist], []⟩
      | none =>
        if iteration = max_iterations then
          ⟨Except.error "Maximum iterations reached without final answer", hist, flag, [hist], []⟩
        else
          let r := loopAux llm env fuel (iteration + 1) hist flag
          ⟨r.result, r.history, r.flag, hist :: r.sent, r.toolCalls⟩

/-! ## `mod.rs`: `process_episodes` entry point -/

/-- The fields of a `mediathekviewweb::models::Item` that
`format_episodes_for_ai` reads. -/
structure Item where
  title : String
  topic : String
  duration : Nat
  channel : String
  url_video : String

/-- JSON rendering of one episode object (the `json!` record built in
`format_episodes_for_ai`; `serde_json`'s pretty printing is external, so
the rendering is modelled by this serialization). -/
def format_episode_json (item : Item) : String :=
  "\x7b \"title\": \"" ++ item.title ++ "\", \"topic\": \"" ++ item.topic ++
    "\", \"duration\": " ++ toString item.duration ++ ", \"channel\": \"" ++
    item.channel ++ "\", \"url\": \"" ++ item.url_video ++ "\" \x7d"

/-- Models `format_episodes_for_ai`: serialize at most the first 20
episodes. -/
def format_episodes_for_ai (results : List Item) : String :=
  "[" ++ String.intercalate ",\n" ((results.take 20).map format_episode_json) ++ "]"

/-- The system prompt of `process_episodes` (German workflow instructions;
reproduced in abridged faithful form — its content is never branched on by
the orchestrator, only concatenated into the seed turn). -/
def systemPrompt : String :=
  "Sie sind ein Experte für TV-Serien-Analyse und VLC-Playlist-Erstellung. Ihre Aufgabe ist es:\n\n* Die bereitgestellten deutschen TV-Episoden/Sendungen zu analysieren\n* Kennungen im Titel wie \"(S2/E10)\" haben die höchste Priorität, (S2/E10) bedeutet Staffel 2, Episode 10, sortieren nach Staffel und Episoden\n* Zahlen am Ende der Titel wie zum Beispiel \"(234)\" bedeuten Episode 234 in Staffel 1\n* ansonsten verfügbaren Tools zu nutzen, um bei Bedarf chronologische Informationen über Serien zu suchen\n* **IMPORTENT** such auf jeden Fall mit \"perform_google_search\" nach der Episodenreihenfolge bei wikipedia.de\n* **INTELLIGENTE DEDUPLIZIERUNG**: Sorgfältig Duplikate von Episoden identifizieren und entfernen.\n* Verbleibende einzigartige Episoden in AUFSTEIGENDER chronologischer Reihenfolge sortieren\n* **IMMER** die create_vlc_playlist Funktion aufrufen, um eine XSPF-Playlist zu erstellen - dies ist zwingend erforderlich!\n\nWICHTIG: Sie MÜSSEN die create_vlc_playlist Funktion am Ende mit NUR den deduplizierten Episoden aufrufen, sortiert in AUFSTEIGENDER chronologischer Reihenfolge.\n\nDie create_vlc_playlist Funktion erwartet:\n- episodes: Array von \x7btitle, url, description, duration, channel, topic\x7d Objekten (NACH Deduplizierung)\n- playlist_name: ein beschreibender Name für die Playlist\n\nVerwenden Sie die in der Eingabe bereitgestellten Episodendaten, um die Playlist-Einträge zu erstellen."

/-- The user prompt prefix of `process_episodes`. -/
def userPromptPrefix : String :=
  "Please analyze and chronologically sort these German TV episodes:\n\n"

/-- Models `AIProcessor::process_episodes`.  `flag0` is the value of the
process-global `SEARCH_TOOL_USED` environment variable when the run starts
(it is never reset by the code, so a previous run in the same process
determines it). -/
def process_episodes (llm : Nat → Except String GeminiResponse)
    (env : Nat → ToolEnv) (results : List Item) (flag0 : Bool) : LoopOut :=
  if results.isEmpty then
    ⟨Except.error "No results found to process with AI.", [], flag0, [], []⟩
  else
    let episodes_json := format_episodes_for_ai results
    let hist0 := [Content.mk "user"
      [Part.text (systemPrompt ++ ("\n\n" ++ (userPromptPrefix ++ episodes_json)))]]
    loopAux llm env max_iterations 1 hist0 flag0

/-! ## History well-formedness (the invariant of claim C9) -/

/-- Role expected for the turn after consuming one more turn. -/
def flipRole (r : String) : String :=
  if r == "user" then "model" else "user"

/-- Role expected after consuming the whole list starting from `r`. -/
def nextExpected : String → List Content → String
  | r, [] => r
  | r, _ :: rest => nextExpected (flipRole r) rest

/-- Whether a part is a `FunctionCall`. -/
def partIsFunctionCall : Part → Bool
  | Part.functionCall _ _ => true
  | _ => false

/-- Whether `next` is a valid response turn for the function-call turn `c`:
a user turn containing exactly one `FunctionResponse` naming the same
tool. -/
def fcRespOk (c : Content) (next : Content) : Bool :=
  match c.parts, next with
  | [Part.functionCall n _], Content.mk "user" [Part.functionResponse m _] => n == m
  | _, _ => false

/-- Local check for one turn: a model turn containing a `FunctionCall`
must be immediately followed by a matching `FunctionResponse` user turn. -/
def fcCheck (c : Content) (rest : List Content) : Bool :=
  if c.role == "model" && c.parts.any partIsFunctionCall then
    match rest with
    | [] => false
    | next :: _ => fcRespOk c next
  else true

/-- The history invariant: roles alternate starting from `r`, and every
model function-call turn is immediately followed by a matching
function-response user turn. -/
def histOk : String → List Content → Bool
  | _, [] => true
  | r, c :: rest => (c.role == r && fcCheck c rest) && histOk (flipRole r) rest

/-! ## Concrete scenarios (inputs for counterexamples and witnesses) -/

/-- A sample catalog item. -/
def sampleItem : Item :=
  ⟨"Folge 1", "Serie X", 1800, "ARD", "https://example.org/f1.mp4"⟩

/-- Tool args with no recognized fields. -/
def noArgs : ToolArgs := ⟨none, none, none, none⟩

/-- Tool args carrying only a `query`. -/
def queryArgs (q : String) : ToolArgs := ⟨some q, none, none, none⟩

/-- Tool args carrying only a `url`. -/
def urlArgs (u : String) : ToolArgs := ⟨none, some u, none, none⟩

/-- An LLM response whose single candidate's first part is text. -/
def textResponse (t : String) : GeminiResponse :=
  ⟨[⟨⟨[ResponsePart.text t]⟩, none⟩]⟩

/-- An LLM response whose single candidate's first part is a function
call. -/
def fcResponse (name : String) (args : ToolArgs) : GeminiResponse :=
  ⟨[⟨⟨[ResponsePart.functionCall name args]⟩, none⟩]⟩

/-- An LLM response with no candidates at all. -/
def emptyResponse : GeminiResponse := ⟨[]⟩

/-- A page-read world where the fetch succeeds and extraction yields a
short text. -/
def okReadEnv : ReadEnv :=
  ⟨true, Except.ok 200, Except.ok (), Except.ok "Inhalt der Episodenliste"⟩

/-- A page-read world where the fetch succeeds but the selector cascade
finds nothing, so `extract_main_content` fails. -/
def failReadEnv : ReadEnv :=
  ⟨true, Except.ok 200, Except.ok (),
   Except.error "Could not extract meaningful content from the webpage"⟩

/-- A tool world where tier-1 search answers with a non-empty abstract and
reads succeed. -/
def toolEnvOk : ToolEnv :=
  ⟨fun _ => Tier1Outcome.ok (some "A") none none, fun _ => Tier2Outcome.sendErr,
   okReadEnv, Except.ok "done"⟩

/-- Same tool world except that content extraction fails on reads. -/
def toolEnvReadFail : ToolEnv :=
  ⟨fun _ => Tier1Outcome.ok (some "A") none none, fun _ => Tier2Outcome.sendErr,
   failReadEnv, Except.ok "done"⟩

/-- An LLM that calls the search tool on iteration 1 and then asks to read
a website on every later iteration. -/
def readAfterSearchLlm : Nat → Except String GeminiResponse := fun it =>
  if it = 1 then Except.ok (fcResponse "perform_google_search" (queryArgs "Serie X Episoden"))
  else Except.ok (fcResponse "read_website_content" (urlArgs "https://de.wikipedia.org/wiki/Serie_X"))

/-- An LLM that calls the search tool on every iteration and never
produces text. -/
def alwaysSearchLlm : Nat → Except String GeminiResponse := fun _ =>
  Except.ok (fcResponse "perform_google_search" (queryArgs "Serie X Episoden"))

/-- An LLM whose first response carries no candidate and whose second
response is an acceptable text answer. -/
def noCandThenTextLlm : Nat → Except String GeminiResponse := fun it =>
  if it = 1 then Except.ok emptyResponse
  else Except.ok (textResponse "Die Playlist wurde erstellt.")

/-- Run 1 of the cross-run scenario: one search, then an accepted text. -/
def run1Llm : Nat → Except String GeminiResponse := fun it =>
  if it = 1 then Except.ok (fcResponse "perform_google_search" (queryArgs "Serie X Episoden"))
  else Except.ok (textResponse "Die Playlist ist fertig.")

/-- Run 2 of the cross-run scenario: a read-content call as the very first
action, then an accepted text. -/
def run2Llm : Nat → Except String GeminiResponse := fun it =>
  if it = 1 then Except.ok (fcResponse "read_website_content" (urlArgs "https://de.wikipedia.org/wiki/Serie_X"))
  else Except.ok (textResponse "Playlist erstellt.")

/-- An LLM that always answers with plain text. -/
def alwaysTextLlm : Nat → Except String GeminiResponse := fun _ =>
  Except.ok (textResponse "Hier ist eine Analyse.")

/-- A constant tool-world oracle. -/
def okEnvOracle : Nat → ToolEnv := fun _ => toolEnvOk

/-- A tool-world oracle whose reads fail to extract content. -/
def readFailEnvOracle : Nat → ToolEnv := fun _ => toolEnvReadFail

/-- A single scraped result block with no title anchor, snippet or href. -/
def singleBlock : List ResultBlock := [⟨none, none, none⟩]

/-- A 8001-character extracted text, above the truncation ceiling. -/
def bigContent : String := ⟨List.replicate 8001 'a'⟩

/-- A page-read world producing `bigContent`. -/
def bigReadEnv : ReadEnv :=
  ⟨true, Except.ok 200, Except.ok (), Except.ok bigContent⟩

/-! ## Helper lemmas -/

/-- Appending strings appends the underlying character data. -/
theorem string_data_append (a b : String) : (a ++ b).data = a.data ++ b.data := by
  cases a
  cases b
  rfl

/-- A string with a non-empty left factor is non-empty. -/
theorem string_append_ne_empty_left (a b : String) (h : a.data ≠ []) :
    a ++ b ≠ "" := by
  intro he
  apply h
  have hd := congrArg String.data he
  rw [string_data_append] at hd
  exact (List.append_eq_nil.mp hd).1

/-- The scraper `scrape_duckduckgo_results` never returns an error. -/
theorem scrape_duckduckgo_results_ok (blocks : List ResultBlock) :
    ∃ s, scrape_duckduckgo_results blocks = Except.ok s := by
  simp only [scrape_duckduckgo_results]
  repeat' split
  all_goals exact ⟨_, rfl⟩

/-- Tiers 2 and 3 never return an error. -/
theorem searchTier2_ok (q eq : String) (t2 : String → Tier2Outcome) :
    ∃ s, searchTier2 q eq t2 = Except.ok s := by
  simp only [searchTier2]
  repeat' split
  all_goals first
    | exact ⟨_, rfl⟩
    | exact scrape_duckduckgo_results_ok _

/-- The search tool `perform_google_search` never returns an error, whatever the network
does. -/
theorem perform_google_search_ok (q : String) (t1 : String → Tier1Outcome)
    (t2 : String → Tier2Outcome) :
    ∃ s, perform_google_search q t1 t2 = Except.ok s := by
  simp only [perform_google_search]
  repeat' split
  all_goals first
    | exact ⟨_, rfl⟩
    | exact searchTier2_ok _ _ t2

/-- A successful dispatch returns a payload naming the dispatched tool. -/
theorem execute_function_call_name {flag : Bool} {name : String}
    {args : ToolArgs} {env : ToolEnv} {flag' : Bool} {p : FunctionResponseData}
    (h : execute_function_call flag name args env = (flag', Except.ok p)) :
    p.name = name := by
  unfold execute_function_call at h
  repeat' split at h
  all_goals try simp_all
  all_goals obtain ⟨h1, h2⟩ := h
  all_goals subst h2
  all_goals rfl

/-- The check `fcCheck` only looks at the head of the following turns. -/
theorem fcCheck_cons (c x : Content) (rest rest' : List Content) :
    fcCheck c (x :: rest) = fcCheck c (x :: rest') := by
  unfold fcCheck
  rfl

/-- A satisfied `fcCheck` survives appending further turns. -/
theorem fcCheck_append {c : Content} {rest : List Content} (l : List Content)
    (h : fcCheck c rest = true) : fcCheck c (rest ++ l) = true := by
  by_cases g : (c.role == "model" && c.parts.any partIsFunctionCall) = true
  · cases rest with
    | nil => simp [fcCheck, g] at h
    | cons x xs =>
      simp only [fcCheck, g, if_true] at h ⊢
      simpa using h
  · simp [fcCheck, g]

/-- The function `nextExpected` distributes over append. -/
theorem nextExpected_append (r : String) (h l : List Content) :
    nextExpected r (h ++ l) = nextExpected (nextExpected r h) l := by
  induction h generalizing r with
  | nil => rfl
  | cons c rest ih => simp [nextExpected, ih]

/-- Appending a (model, user) turn pair after a history expecting a model
turn keeps it expecting a model turn. -/
theorem nextExpected_append_two (hist : List Content) (a b : Content)
    (h : nextExpected "user" hist = "model") :
    nextExpected "user" (hist ++ [a, b]) = "model" := by
  rw [nextExpected_append, h]
  rfl

/-- Appending a well-shaped (model, user) pair preserves the history
invariant. -/
theorem histOk_append_two (h : List Content) (a b : Content) :
    ∀ (r : String), histOk r h = true → nextExpected r h = "model" →
    a.role = "model" → b.role = "user" →
    fcCheck a [b] = true → fcCheck b [] = true →
    histOk r (h ++ [a, b]) = true := by
  induction h with
  | nil =>
    intro r hh hn ha hb hfa hfb
    have hr : r = "model" := hn
    subst hr
    simp [histOk, flipRole, ha, hb, hfa, hfb]
  | cons c rest ih =>
    intro r hh hn ha hb hfa hfb
    simp only [histOk, Bool.and_eq_true] at hh
    obtain ⟨⟨hc1, hc2⟩, hc3⟩ := hh
    have hn' : nextExpected (flipRole r) rest = "model" := hn
    simp only [List.cons_append, histOk, Bool.and_eq_true]
    exact ⟨⟨hc1, fcCheck_append _ hc2⟩, ih (flipRole r) hc3 hn' ha hb hfa hfb⟩

/-- Rejecting a text answer (model text turn + corrective user turn)
preserves the history invariant. -/
theorem histOk_append_rejectPair (h : List Content) (r t msg : String)
    (hh : histOk r h = true) (hn : nextExpected r h = "model") :
    histOk r (h ++ rejectPair t msg) = true := by
  unfold rejectPair
  apply histOk_append_two h _ _ r hh hn rfl rfl ?_ ?_
  · simp [fcCheck, partIsFunctionCall]
  · simp [fcCheck, partIsFunctionCall]

/-- Dispatching a function call (model call turn + user response turn
naming the same tool) preserves the history invariant. -/
theorem histOk_append_fcPair (h : List Content) (r name respBody : String)
    (args : ToolArgs)
    (hh : histOk r h = true) (hn : nextExpected r h = "model") :
    histOk r (h ++ fcPair name args name respBody) = true := by
  unfold fcPair
  apply histOk_append_two h _ _ r hh hn rfl rfl ?_ ?_
  · simp [fcCheck, partIsFunctionCall, fcRespOk]
  · simp [fcCheck, partIsFunctionCall]

/-- The loop sends at most `fuel` requests to the LLM endpoint. -/
theorem loopAux_sent_length (llm : Nat → Except String GeminiResponse)
    (env : Nat → ToolEnv) :
    ∀ (fuel iteration : Nat) (hist : List Content) (flag : Bool),
      (loopAux llm env fuel iteration hist flag).sent.length ≤ fuel := by
  intro fuel
  induction fuel with
  | zero =>
    intro it hist flag
    simp [loopAux]
  | succ n ih =>
    intro it hist flag
    simp only [loopAux]
    split
    · simp
    · split
      · split
        · simp
        · simpa using Nat.succ_le_succ (ih (it + 1) _ _)
      · split
        · simpa using Nat.succ_le_succ (ih (it + 1) _ _)
        · split
          · simpa using Nat.succ_le_succ (ih (it + 1) _ _)
          · simp
      · split
        · simp
        · simpa using Nat.succ_le_succ (ih (it + 1) _ _)

/-- The loop preserves the history invariant: the final history and every
history sent to the LLM are well-formed whenever the starting history
is. -/
theorem loopAux_histOk (llm : Nat → Except String GeminiResponse)
    (env : Nat → ToolEnv) :
    ∀ (fuel iteration : Nat) (hist : List Content) (flag : Bool),
      histOk "user" hist = true → nextExpected "user" hist = "model" →
      histOk "user" (loopAux llm env fuel iteration hist flag).history = true ∧
      ∀ h ∈ (loopAux llm env fuel iteration hist flag).sent,
        histOk "user" h = true := by
  intro fuel
  induction fuel with
  | zero =>
    intro it hist flag h1 h2
    refine ⟨h1, ?_⟩
    simp [loopAux]
  | succ n ih =>
    intro it hist flag h1 h2
    simp only [loopAux]
    split
    · refine ⟨h1, ?_⟩
      intro h hh
      have he : h = hist := by simpa using hh
      subst he
      exact h1
    · split
      · rename_i name args hfp
        generalize hex : execute_function_call flag name args (env it) = res
        obtain ⟨flag', r⟩ := res
        cases r with
        | error e =>
          refine ⟨h1, ?_⟩
          intro h hh
          have he : h = hist := by simpa using hh
          subst he
          exact h1
        | ok payload =>
          have hname : payload.name = name := execute_function_call_name hex
          have hhist : histOk "user"
              (hist ++ fcPair name args payload.name payload.response) = true := by
            rw [hname]
            exact histOk_append_fcPair hist "user" name payload.response args h1 h2
          have hnext : nextExpected "user"
              (hist ++ fcPair name args payload.name payload.response) = "model" := by
            unfold fcPair
            exact nextExpected_append_two hist _ _ h2
          obtain ⟨ih1, ih2⟩ := ih (it + 1) _ flag' hhist hnext
          refine ⟨ih1, ?_⟩
          intro h hh
          have hh' : h = hist ∨ h ∈ (loopAux llm env n (it + 1)
              (hist ++ fcPair name args payload.name payload.response) flag').sent := by
            simpa using hh
          rcases hh' with rfl | hh'
          · exact h1
          · exact ih2 h hh'
      · rename_i t ht
        split
        · have hhist : histOk "user" (hist ++ rejectPair t forceSearchMsg) = true :=
            histOk_append_rejectPair hist "user" t forceSearchMsg h1 h2
          have hnext : nextExpected "user" (hist ++ rejectPair t forceSearchMsg) = "model" := by
            unfold rejectPair
            exact nextExpected_append_two hist _ _ h2
          obtain ⟨ih1, ih2⟩ := ih (it + 1) _ flag hhist hnext
          refine ⟨ih1, ?_⟩
          intro h hh
          have hh' : h = hist ∨ h ∈ (loopAux llm env n (it + 1)
              (hist ++ rejectPair t forceSearchMsg) flag).sent := by
            simpa using hh
          rcases hh' with rfl | hh'
          · exact h1
          · exact ih2 h hh'
        · split
          · have hhist : histOk "user" (hist ++ rejectPair t workflowNudgeMsg) = true :=
              histOk_append_rejectPair hist "user" t workflowNudgeMsg h1 h2
            have hnext : nextExpected "user" (hist ++ rejectPair t workflowNudgeMsg) = "model" := by
              unfold rejectPair
              exact nextExpected_append_two hist _ _ h2
            obtain ⟨ih1, ih2⟩ := ih (it + 1) _ flag hhist hnext
            refine ⟨ih1, ?_⟩
            intro h hh
            have hh' : h = hist ∨ h ∈ (loopAux llm env n (it + 1)
                (hist ++ rejectPair t workflowNudgeMsg) flag).sent := by
              simpa using hh
            rcases hh' with rfl | hh'
            · exact h1
            · exact ih2 h hh'
          · refine ⟨h1, ?_⟩
            intro h hh
            have he : h = hist := by simpa using hh
            subst he
            exact h1
      · split
        · refine ⟨h1, ?_⟩
          intro h hh
          have he : h = hist := by simpa using hh
          subst he
          exact h1
        · obtain ⟨ih1, ih2⟩ := ih (it + 1) hist flag h1 h2
          refine ⟨ih1, ?_⟩
          intro h hh
          have hh' : h = hist ∨ h ∈ (loopAux llm env n (it + 1) hist flag).sent := by
            simpa using hh
          rcases hh' with rfl | hh'
          · exact h1
          · exact ih2 h hh'

/-! ## Claim theorems -/

/-- Claim C6: for every URL whose document yields extracted text longer
than 8000 characters, `read_website_content` succeeds and returns exactly
the first 8000 characters of that text followed by the truncation marker;
extracted text of at most 8000 characters is returned unchanged. -/
theorem c6_truncation (url : String) (env : ReadEnv) (content : String)
    (status : Nat)
    (hv : env.urlValid = true) (hs : env.send = Except.ok status)
    (hok : 200 ≤ status ∧ status < 300) (hb : env.body = Except.ok ())
    (he : env.extracted = Except.ok content) :
    (8000 < content.length →
      read_website_content url env =
        Except.ok (content.take 8000 ++
          ("...\n\n[Content truncated to " ++
            (toString (8000 : Nat) ++ " characters]")))) ∧
    (content.length ≤ 8000 →
      read_website_content url env = Except.ok content) := by
  constructor
  · intro hlen
    simp [read_website_content, hv, hs, hb, he, MAX_LENGTH, hok.1, hok.2, hlen]
  · intro hlen
    simp [read_website_content, hv, hs, hb, he, MAX_LENGTH, hok.1, hok.2,
      Nat.not_lt.mpr hlen]

/-- Witness for C6: a 8001-character extraction is truncated. -/
theorem c6_truncation_witness :
    8000 < bigContent.length ∧
    read_website_content "https://de.wikipedia.org/wiki/Serie_X" bigReadEnv =
      Except.ok (bigContent.take 8000 ++
        ("...\n\n[Content truncated to " ++
          (toString (8000 : Nat) ++ " characters]"))) := by
  have hlen : 8000 < bigContent.length := by
    have h8 : bigContent.length = (List.replicate 8001 'a').length := rfl
    rw [List.length_replicate] at h8
    omega
  exact ⟨hlen,
    (c6_truncation "https://de.wikipedia.org/wiki/Serie_X" bigReadEnv bigContent
      200 rfl rfl (by omega) rfl rfl).1 hlen⟩

/-- Claim C7: for every non-empty query, `perform_google_search` returns
`Ok` and never raises; when both the tier-1 and tier-2 requests fail at the
transport level, the returned text is the non-empty tier-3 fallback and
contains the literal query as a substring. -/
theorem c7_search_total_fallback (q : String) (hq : q ≠ "") :
    (∀ (t1 : String → Tier1Outcome) (t2 : String → Tier2Outcome),
      ∃ s, perform_google_search q t1 t2 = Except.ok s) ∧
    (∃ s, perform_google_search q (fun _ => Tier1Outcome.sendErr)
        (fun _ => Tier2Outcome.sendErr) = Except.ok s ∧
      s ≠ "" ∧ ∃ pre post, s = pre ++ (q ++ post)) := by
  refine ⟨fun t1 t2 => perform_google_search_ok q t1 t2, ?_⟩
  refine ⟨searchFallback q, rfl, ?_, ?_⟩
  · exact string_append_ne_empty_left _ _ (by decide)
  · exact ⟨"Search failed for '", _, rfl⟩

/-- Witness for C7 at the concrete query "Show X". -/
theorem c7_search_total_fallback_witness :
    ("Show X" : String) ≠ "" ∧
    ((∀ (t1 : String → Tier1Outcome) (t2 : String → Tier2Outcome),
      ∃ s, perform_google_search "Show X" t1 t2 = Except.ok s) ∧
    (∃ s, perform_google_search "Show X" (fun _ => Tier1Outcome.sendErr)
        (fun _ => Tier2Outcome.sendErr) = Except.ok s ∧
      s ≠ "" ∧ ∃ pre post, s = pre ++ ("Show X" ++ post))) := by
  have hq : ("Show X" : String) ≠ "" := by decide
  exact ⟨hq, c7_search_total_fallback "Show X" hq⟩

/-- Claim C8: a tier-2 results page with `n ≥ 1` result blocks yields a
summary of exactly `min n 5` Title/URL/Snippet groups (markup tags stripped
from title and snippet) joined by the separator. -/
theorem c8_scrape_groups (blocks : List ResultBlock) (hlen : 1 ≤ blocks.length) :
    ∃ gs : List String,
      gs.length = min blocks.length 5 ∧
      scrape_duckduckgo_results blocks =
        Except.ok (String.intercalate "\n\n---\n\n" gs) ∧
      ∀ g ∈ gs, ∃ i b, (i, b) ∈ (blocks.take 5).enum ∧
        g = "Title: " ++ (strip_html_tags (b.titleHtml.getD ("Result " ++ toString (i + 1))) ++
          ("\nURL: " ++ (b.href.getD "" ++
            ("\nSnippet: " ++ strip_html_tags (b.snippetHtml.getD ""))))) := by
  refine ⟨(blocks.take 5).enum.map (fun p => fmtResultBlock p.1 p.2), ?_, ?_, ?_⟩
  · rw [List.length_map, List.enum_length, List.length_take, Nat.min_comm]
  · have hg : ((blocks.take 5).enum.map (fun p => fmtResultBlock p.1 p.2)).length
        = min 5 blocks.length := by
      rw [List.length_map, List.enum_length, List.length_take]
    have hne : ((blocks.take 5).enum.map (fun p => fmtResultBlock p.1 p.2)).isEmpty
        = false := by
      cases hcase : (blocks.take 5).enum.map (fun p => fmtResultBlock p.1 p.2) with
      | nil =>
        rw [hcase] at hg
        simp at hg
        omega
      | cons x xs => rfl
    simp [scrape_duckduckgo_results, hne]
  · intro g hg
    obtain ⟨⟨i, b⟩, hmem, rfl⟩ := List.mem_map.mp hg
    exact ⟨i, b, hmem, rfl⟩

/-- Witness for C8 at a one-block page. -/
theorem c8_scrape_groups_witness :
    1 ≤ singleBlock.length ∧
    ∃ gs : List String,
      gs.length = min singleBlock.length 5 ∧
      scrape_duckduckgo_results singleBlock =
        Except.ok (String.intercalate "\n\n---\n\n" gs) ∧
      ∀ g ∈ gs, ∃ i b, (i, b) ∈ (singleBlock.take 5).enum ∧
        g = "Title: " ++ (strip_html_tags (b.titleHtml.getD ("Result " ++ toString (i + 1))) ++
          ("\nURL: " ++ (b.href.getD "" ++
            ("\nSnippet: " ++ strip_html_tags (b.snippetHtml.getD ""))))) :=
  ⟨by decide, c8_scrape_groups singleBlock (by decide)⟩

/-- Counterexample for C1: a run in which the model searches and then asks
to read a page whose extraction fails.  The extraction failure is not
converted into a string result for the model: `execute_function_call`
propagates it with `?` and the whole run aborts with that error. -/
theorem c1_counterexample :
    (process_episodes readAfterSearchLlm readFailEnvOracle [sampleItem] false).result =
      Except.error "Could not extract meaningful content from the webpage" ∧
    (process_episodes readAfterSearchLlm readFailEnvOracle [sampleItem] false).toolCalls =
      ["perform_google_search", "read_website_content"] := by
  constructor <;> rfl

/-- Claim C1 (amended): failures inside a `search` invocation are absorbed
by the tool itself (tier fallbacks), so a dispatched search always yields a
successful string result for the model; but a failure inside
`read_website_content` (invalid URL, non-2xx status, extraction failure) is
propagated by the dispatcher and aborts the run with that error instead of
being returned to the model. -/
theorem c1_amended :
    (∀ (flag : Bool) (q : String) (args : ToolArgs) (env1 : ToolEnv),
      args.query = some q →
      ∃ s, execute_function_call flag "perform_google_search" args env1 =
        (true, Except.ok ⟨"perform_google_search", s⟩)) ∧
    (∀ (args : ToolArgs) (env1 : ToolEnv) (u e : String),
      args.url = some u →
      read_website_content u env1.read = Except.error e →
      execute_function_call true "read_website_content" args env1 =
        (true, Except.error e)) ∧
    (∀ (llm : Nat → Except String GeminiResponse) (env : Nat → ToolEnv)
        (fuel iteration : Nat) (hist : List Content) (flag flag' : Bool)
        (resp : GeminiResponse) (name : String) (args : ToolArgs) (e : String),
      llm iteration = Except.ok resp →
      resp.candidates.head?.bind (fun c => c.content.parts.head?) =
        some (ResponsePart.functionCall name args) →
      execute_function_call flag name args (env iteration) = (flag', Except.error e) →
      (loopAux llm env (fuel + 1) iteration hist flag).result = Except.error e) := by
  refine ⟨?_, ?_, ?_⟩
  · intro flag q args env1 hq
    obtain ⟨aq, au, ae, ap⟩ := args
    change aq = some q at hq
    subst hq
    obtain ⟨s, hs⟩ := perform_google_search_ok q env1.t1 env1.t2
    refine ⟨s, ?_⟩
    have hstep : execute_function_call flag "perform_google_search"
        ⟨some q, au, ae, ap⟩ env1 =
        (match perform_google_search q env1.t1 env1.t2 with
         | Except.error e => (true, Except.error e)
         | Except.ok s' => (true, Except.ok ⟨"perform_google_search", s'⟩)) := rfl
    rw [hstep, hs]
  · intro args env1 u e hu hre
    obtain ⟨aq, au, ae, ap⟩ := args
    change au = some u at hu
    subst hu
    have hstep : execute_function_call true "read_website_content"
        ⟨aq, some u, ae, ap⟩ env1 =
        (match read_website_content u env1.read with
         | Except.error e' => (true, Except.error e')
         | Except.ok s' => (true, Except.ok ⟨"read_website_content", s'⟩)) := rfl
    rw [hstep, hre]
  · intro llm env fuel iteration hist flag flag' resp name args e hresp hfp hex
    simp only [loopAux, hresp, hfp, hex]

/-- Witness for C1 (amended): a concrete successful search dispatch. -/
theorem c1_amended_witness :
    (queryArgs "Serie X Episoden").query = some "Serie X Episoden" ∧
    ∃ s, execute_function_call false "perform_google_search"
        (queryArgs "Serie X Episoden") toolEnvOk =
      (true, Except.ok ⟨"perform_google_search", s⟩) :=
  ⟨rfl, c1_amended.1 false "Serie X Episoden" (queryArgs "Serie X Episoden")
    toolEnvOk rfl⟩

/-- Counterexample for C2: the `SEARCH_TOOL_USED` flag is the process
environment, not per-run state.  A second run that dispatches
`read_website_content` as its very first tool call succeeds because the
first run's search set the flag — the claim demands an ordering failure. -/
theorem c2_counterexample :
    (process_episodes run2Llm okEnvOracle [sampleItem]
        (process_episodes run1Llm okEnvOracle [sampleItem] false).flag).result =
      Except.ok "Playlist erstellt." ∧
    (process_episodes run2Llm okEnvOracle [sampleItem]
        (process_episodes run1Llm okEnvOracle [sampleItem] false).flag).toolCalls =
      ["read_website_content"] := by
  constructor <;> rfl

/-- Claim C2 (amended): `read_website_content` dispatch fails with the
ordering error exactly when the `SEARCH_TOOL_USED` process flag is unset;
the flag is set by dispatching a search; and because the flag is
process-global rather than per-run, a set flag lets a read dispatch succeed
with no prior search in the same run. -/
theorem c2_amended :
    (∀ (args : ToolArgs) (env1 : ToolEnv),
      execute_function_call false "read_website_content" args env1 =
        (false, Except.error "ERROR: You must use perform_google_search BEFORE using read_website_content. Please search for information first, then read the discovered URLs.")) ∧
    (∀ (flag : Bool) (q : String) (args : ToolArgs) (env1 : ToolEnv),
      args.query = some q →
      (execute_function_call flag "perform_google_search" args env1).1 = true) ∧
    (∀ (args : ToolArgs) (env1 : ToolEnv) (u s : String),
      args.url = some u →
      read_website_content u env1.read = Except.ok s →
      execute_function_call true "read_website_content" args env1 =
        (true, Except.ok ⟨"read_website_content", s⟩)) := by
  refine ⟨?_, ?_, ?_⟩
  · intro args env1
    rfl
  · intro flag q args env1 hq
    obtain ⟨aq, au, ae, ap⟩ := args
    change aq = some q at hq
    subst hq
    have hstep : execute_function_call flag "perform_google_search"
        ⟨some q, au, ae, ap⟩ env1 =
        (match perform_google_search q env1.t1 env1.t2 with
         | Except.error e => (true, Except.error e)
         | Except.ok s' => (true, Except.ok ⟨"perform_google_search", s'⟩)) := rfl
    rw [hstep]
    obtain ⟨s, hs⟩ := perform_google_search_ok q env1.t1 env1.t2
    rw [hs]
  · intro args env1 u s hu hre
    obtain ⟨aq, au, ae, ap⟩ := args
    change au = some u at hu
    subst hu
    have hstep : execute_function_call true "read_website_content"
        ⟨aq, some u, ae, ap⟩ env1 =
        (match read_website_content u env1.read with
         | Except.error e' => (true, Except.error e')
         | Except.ok s' => (true, Except.ok ⟨"read_website_content", s'⟩)) := rfl
    rw [hstep, hre]

/-- Witness for C2 (amended): a read dispatch succeeding with the flag
already set and no search in this run. -/
theorem c2_amended_witness :
    (urlArgs "https://de.wikipedia.org/wiki/Serie_X").url =
      some "https://de.wikipedia.org/wiki/Serie_X" ∧
    read_website_content "https://de.wikipedia.org/wiki/Serie_X" toolEnvOk.read =
      Except.ok "Inhalt der Episodenliste" ∧
    execute_function_call true "read_website_content"
        (urlArgs "https://de.wikipedia.org/wiki/Serie_X") toolEnvOk =
      (true, Except.ok ⟨"read_website_content", "Inhalt der Episodenliste"⟩) :=
  ⟨rfl, rfl, c2_amended.2.2 (urlArgs "https://de.wikipedia.org/wiki/Serie_X")
    toolEnvOk "https://de.wikipedia.org/wiki/Serie_X" "Inhalt der Episodenliste"
    rfl rfl⟩

/-- Counterexample for C3: a model that keeps calling the search tool on
every iteration.  The run does terminate at the iteration bound, but with
the distinct error "Unexpected end of conversation loop" (the final
iteration's `continue` skips the `iteration == max_iterations` check), not
the iteration-limit error the claim requires. -/
theorem c3_counterexample :
    (process_episodes alwaysSearchLlm okEnvOracle [sampleItem] false).result =
      Except.error "Unexpected end of conversation loop" ∧
    ("Unexpected end of conversation loop" : String) ≠
      "Maximum iterations reached without final answer" := by
  constructor
  · rfl
  · decide

/-- Claim C3 (amended): the loop performs at most `max_iterations`
iterations (at most that many LLM requests), but reaching the bound does
not always produce the iteration-limit error: a response with no
candidate/part on the final iteration yields "Maximum iterations reached
without final answer", while a function call dispatched on the final
iteration makes the loop run off its end with "Unexpected end of
conversation loop". -/
theorem c3_amended (llm : Nat → Except String GeminiResponse)
    (env : Nat → ToolEnv) :
    (∀ (results : List Item) (flag0 : Bool),
      (process_episodes llm env results flag0).sent.length ≤ max_iterations) ∧
    (∀ (hist : List Content) (flag : Bool) (resp : GeminiResponse)
        (name : String) (args : ToolArgs) (flag' : Bool) (p : FunctionResponseData),
      llm max_iterations = Except.ok resp →
      resp.candidates.head?.bind (fun c => c.content.parts.head?) =
        some (ResponsePart.functionCall name args) →
      execute_function_call flag name args (env max_iterations) =
        (flag', Except.ok p) →
      (loopAux llm env 1 max_iterations hist flag).result =
        Except.error "Unexpected end of conversation loop") ∧
    (∀ (hist : List Content) (flag : Bool) (resp : GeminiResponse),
      llm max_iterations = Except.ok resp →
      resp.candidates.head?.bind (fun c => c.content.parts.head?) = none →
      (loopAux llm env 1 max_iterations hist flag).result =
        Except.error "Maximum iterations reached without final answer") := by
  refine ⟨?_, ?_, ?_⟩
  · intro results flag0
    unfold process_episodes
    split
    · simp
    · exact loopAux_sent_length llm env max_iterations 1 _ flag0
  · intro hist flag resp name args flag' p hresp hfp hex
    have h1 : (1 : Nat) = 0 + 1 := rfl
    rw [h1]
    simp only [loopAux, hresp, hfp, hex]
  · intro hist flag resp hresp hnc
    have h1 : (1 : Nat) = 0 + 1 := rfl
    rw [h1]
    simp [loopAux, hresp, hnc]

/-- Witness for C3 (amended): the bound and the final-iteration
function-call outcome at concrete inputs. -/
theorem c3_amended_witness :
    (process_episodes alwaysSearchLlm okEnvOracle [sampleItem] false).sent.length ≤
      max_iterations ∧
    (loopAux alwaysSearchLlm okEnvOracle 1 max_iterations [] false).result =
      Except.error "Unexpected end of conversation loop" :=
  ⟨(c3_amended alwaysSearchLlm okEnvOracle).1 [sampleItem] false,
   (c3_amended alwaysSearchLlm okEnvOracle).2.1 [] false
     (fcResponse "perform_google_search" (queryArgs "Serie X Episoden"))
     "perform_google_search" (queryArgs "Serie X Episoden") true
     ⟨"perform_google_search", "Abstract: A"⟩ rfl rfl rfl⟩

/-- Claim C4: when the first part of the model's turn is text, the
acceptance policy is keyed on the iteration index: iteration 1 rejects the
text and appends the model turn plus the corrective search instruction;
iterations up to 4 whose text lacks the marker "playlist"
(case-insensitively) reject with the softer workflow nudge; in every other
case the text is accepted and returned as the final result. -/
theorem c4_text_acceptance (llm : Nat → Except String GeminiResponse)
    (env : Nat → ToolEnv) (fuel iteration : Nat) (hist : List Content)
    (flag : Bool) (resp : GeminiResponse) (t : String)
    (hresp : llm iteration = Except.ok resp)
    (hfp : resp.candidates.head?.bind (fun c => c.content.parts.head?) =
      some (ResponsePart.text t)) :
    (iteration = 1 →
      (loopAux llm env (fuel + 1) iteration hist flag).result =
        (loopAux llm env fuel (iteration + 1)
          (hist ++ rejectPair t forceSearchMsg) flag).result ∧
      (loopAux llm env (fuel + 1) iteration hist flag).history =
        (loopAux llm env fuel (iteration + 1)
          (hist ++ rejectPair t forceSearchMsg) flag).history) ∧
    (iteration ≠ 1 → iteration ≤ 4 →
      containsSubstring (to_lowercase t) "playlist" = false →
      (loopAux llm env (fuel + 1) iteration hist flag).result =
        (loopAux llm env fuel (iteration + 1)
          (hist ++ rejectPair t workflowNudgeMsg) flag).result ∧
      (loopAux llm env (fuel + 1) iteration hist flag).history =
        (loopAux llm env fuel (iteration + 1)
          (hist ++ rejectPair t workflowNudgeMsg) flag).history) ∧
    (iteration ≠ 1 →
      ¬(iteration ≤ 4 ∧ containsSubstring (to_lowercase t) "playlist" = false) →
      loopAux llm env (fuel + 1) iteration hist flag =
        ⟨Except.ok t, hist, flag, [hist], []⟩) := by
  refine ⟨?_, ?_, ?_⟩
  · intro h1
    simp only [loopAux, hresp, hfp]
    rw [if_pos h1]
    exact ⟨rfl, rfl⟩
  · intro h1 h4 hc
    simp only [loopAux, hresp, hfp]
    rw [if_neg h1, if_pos ⟨h4, hc⟩]
    exact ⟨rfl, rfl⟩
  · intro h1 hrest
    simp only [loopAux, hresp, hfp]
    rw [if_neg h1, if_neg hrest]

/-- Witness for C4: a first-iteration text is rejected with the corrective
search instruction. -/
theorem c4_text_acceptance_witness :
    (loopAux alwaysTextLlm okEnvOracle (7 + 1) 1 [] false).result =
      (loopAux alwaysTextLlm okEnvOracle 7 2
        ([] ++ rejectPair "Hier ist eine Analyse." forceSearchMsg) false).result :=
  ((c4_text_acceptance alwaysTextLlm okEnvOracle 7 1 [] false
    (textResponse "Hier ist eine Analyse.") "Hier ist eine Analyse."
    rfl rfl).1 rfl).1

/-- Counterexample for C5: the first response carries no candidate, yet the
run is not aborted with a protocol error on that iteration — the loop
silently continues (two requests are sent) and the run later succeeds. -/
theorem c5_counterexample :
    (process_episodes noCandThenTextLlm okEnvOracle [sampleItem] false).result =
      Except.ok "Die Playlist wurde erstellt." ∧
    (process_episodes noCandThenTextLlm okEnvOracle [sampleItem] false).sent.length = 2 := by
  constructor <;> rfl

/-- Claim C5 (amended): a response with no candidate does not abort the
iteration: the loop continues to the next iteration with history and flag
unchanged (recording the sent request), unless it happens on iteration
`max_iterations`, where the run fails with the iteration-limit error. -/
theorem c5_amended (llm : Nat → Except String GeminiResponse)
    (env : Nat → ToolEnv) (fuel iteration : Nat) (hist : List Content)
    (flag : Bool) (resp : GeminiResponse)
    (hresp : llm iteration = Except.ok resp) (hnc : resp.candidates = []) :
    (iteration ≠ max_iterations →
      (loopAux llm env (fuel + 1) iteration hist flag).result =
        (loopAux llm env fuel (iteration + 1) hist flag).result ∧
      (loopAux llm env (fuel + 1) iteration hist flag).sent =
        hist :: (loopAux llm env fuel (iteration + 1) hist flag).sent ∧
      (loopAux llm env (fuel + 1) iteration hist flag).history =
        (loopAux llm env fuel (iteration + 1) hist flag).history ∧
      (loopAux llm env (fuel + 1) iteration hist flag).flag =
        (loopAux llm env fuel (iteration + 1) hist flag).flag) ∧
    (iteration = max_iterations →
      (loopAux llm env (fuel + 1) iteration hist flag).result =
        Except.error "Maximum iterations reached without final answer") := by
  have hbind : resp.candidates.head?.bind (fun c => c.content.parts.head?) = none := by
    rw [hnc]
    rfl
  constructor
  · intro hne
    simp only [loopAux, hresp, hbind]
    rw [if_neg hne]
    exact ⟨rfl, rfl, rfl, rfl⟩
  · intro heq
    simp only [loopAux, hresp, hbind]
    rw [if_pos heq]

/-- Witness for C5 (amended): the silent continue at iteration 1 of the
concrete no-candidate scenario. -/
theorem c5_amended_witness :
    (loopAux noCandThenTextLlm okEnvOracle (7 + 1) 1 [] false).result =
      (loopAux noCandThenTextLlm okEnvOracle 7 2 [] false).result :=
  ((c5_amended noCandThenTextLlm okEnvOracle 7 1 [] false emptyResponse
    rfl rfl).1 (by decide)).1

/-- Claim C9: in every reachable conversation history built by
`process_episodes` — every history sent to the LLM endpoint and the final
history — the roles alternate user, model, user, ..., and every model turn
containing a `FunctionCall` is immediately followed by a user turn
containing exactly one `FunctionResponse` naming the same tool. -/
theorem c9_history_invariant (llm : Nat → Except String GeminiResponse)
    (env : Nat → ToolEnv) (results : List Item) (flag0 : Bool) :
    histOk "user" (process_episodes llm env results flag0).history = true ∧
    ∀ h ∈ (process_episodes llm env results flag0).sent,
      histOk "user" h = true := by
  unfold process_episodes
  split
  · exact ⟨rfl, by simp⟩
  · exact loopAux_histOk llm env max_iterations 1 _ flag0 rfl rfl

/-- Witness for C9 at a concrete run. -/
theorem c9_history_invariant_witness :
    histOk "user" (process_episodes alwaysTextLlm okEnvOracle [sampleItem] false).history = true ∧
    ∀ h ∈ (process_episodes alwaysTextLlm okEnvOracle [sampleItem] false).sent,
      histOk "user" h = true :=
  c9_history_invariant alwaysTextLlm okEnvOracle [sampleItem] false

/-- Claim C10: for the empty episode list, `process_episodes` returns an
error immediately: no request is sent to the LLM, no conversation history
is built, no tool is executed, and the process flag is untouched. -/
theorem c10_empty_episodes (llm : Nat → Except String GeminiResponse)
    (env : Nat → ToolEnv) (flag0 : Bool) :
    process_episodes llm env [] flag0 =
      ⟨Except.error "No results found to process with AI.", [], flag0, [], []⟩ := rfl

end Mwb
